import Mathlib

/-!
Verification of the passwordless authentication lifecycle of the
blogops-app-examples repository, as a shallow embedding in Lean 4.

Embedded sources:
* `firebase-passwordless-auth/src/services/authService.js` — the service
  layer: in-memory map of `authRequestId -> \x7b email, createdAt \x7d`,
  send/resend/verify operations, Firestore profile upsert and Firebase
  custom-token minting on verification success.
* `vue-passwordless-auth/server/api/passwordless/*` — Nuxt/h3 handlers for
  send, resend and verify.
* `vue-passwordless-auth` Pinia store `setAuthRequest` action.
* Nuxt session utils (`setUserSession`/`getUserSession`/`clearUserSession`,
  jwt-signed `pw_sess` cookie) and the `session.get.ts` handler.
* `nextjs-passwordless-auth/src/app/api/verify-magic-link/route.ts` GET/POST.

External collaborators (the Scalekit SDK, Firestore, the jwt library) are
black boxes per the spec: SDK calls are represented by their result value,
passed in as an `Except` parameter; the jwt signer/verifier is modelled
abstractly as a token record carrying the signing secret and expiry, with
verification succeeding exactly when the secret matches and the token is
unexpired. Firestore reads/writes are modelled as succeeding (their own
failure modes are outside every claim considered here).
-/

namespace BlogOps

/-- JavaScript truthiness of an optional string: `undefined`/`null` and the
empty string are falsy. -/
def truthyS : Option String → Bool
  | some s => s ≠ ""
  | none => false

/-- JavaScript truthiness of an optional number: `undefined`/`null` and `0`
are falsy. -/
def truthyN : Option Nat → Bool
  | some n => n ≠ 0
  | none => false

/-! ## firebase-passwordless-auth: `src/services/authService.js` -/

/-- Value stored in the in-memory `authRequests` map:
`\x7b email, createdAt: Date.now() \x7d`. -/
structure AuthEntry where
  email : String
  createdAt : Nat
deriving DecidableEq, Repr

/-- The module-level `authRequests` map (`Map` from `authRequestId` strings
to entries), as an association list. -/
abbrev ReqMap := List (String × AuthEntry)

/-- `authRequests.get(k)` lookup. -/
def mapGet (k : String) : ReqMap → Option AuthEntry
  | [] => none
  | (k', v) :: rest => if k' = k then some v else mapGet k rest

/-- `authRequests.delete(k)`. -/
def mapDelete (k : String) : ReqMap → ReqMap
  | [] => []
  | (k', v) :: rest => if k' = k then mapDelete k rest else (k', v) :: mapDelete k rest

/-- `authRequests.set(k, v)` — replaces any existing binding of `k`. -/
def mapSet (k : String) (v : AuthEntry) (m : ReqMap) : ReqMap :=
  (k, v) :: mapDelete k m

/-- An error thrown by the Scalekit SDK: `err.message` and the optional
`err.response.status`. -/
structure SdkErr where
  message : String
  responseStatus : Option Nat
deriving DecidableEq, Repr

/-- `AppError(message, status, \x7b sdkError \x7d)` from `utils/errors`. -/
structure AppError where
  message : String
  status : Nat
  sdkError : String
deriving DecidableEq, Repr

/-- `wrapSDKError(err, message)`: status is `err.response.status` when
present, else 502. -/
def wrapSDKError (err : SdkErr) (message : String) : AppError :=
  { message := message
    status := err.responseStatus.getD 502
    sdkError := err.message }

/-- The SDK response of `sendPasswordlessEmail` (the field the service
reads). -/
structure SendResponse where
  authRequestId : String
deriving DecidableEq, Repr

/-- The SDK response of `resendPasswordlessEmail` (opaque to the service:
it is returned unchanged). -/
structure ResendResponse where
  payload : String
deriving DecidableEq, Repr

/-- The SDK response of `verifyPasswordlessEmail`: the verified email and
the optional `user_id`. -/
structure VerifyResponse where
  email : String
  user_id : Option String
deriving DecidableEq, Repr

/-- A Firestore `users` document: `\x7b id, email \x7d`. -/
structure Profile where
  id : String
  email : String
deriving DecidableEq, Repr

/-- The service's mutable state: the `authRequests` map plus the Firestore
`users` collection. -/
structure SvcState where
  authRequests : ReqMap
  users : List Profile
deriving DecidableEq, Repr

/-- Result of `finalizeUserSessionAsync` (the `verifyResponse` echo is
omitted; it is the SDK value passed in unchanged). -/
structure FinalizeOk where
  user : Profile
  firebaseToken : String
deriving DecidableEq, Repr

/-- `db.collection('users').where('email','==',email).limit(1).get()`. -/
def findProfile (email : String) : List Profile → Option Profile
  | [] => none
  | p :: rest => if p.email = email then some p else findProfile email rest

/-- `sendPasswordlessEmail(email)`: on SDK success, store
`\x7b email, createdAt \x7d` under the returned `authRequestId`; on SDK
failure, wrap and rethrow, leaving state unchanged. `pr` is the result of
the SDK call; `now` is `Date.now()`. -/
def sendPasswordlessEmail (pr : Except SdkErr SendResponse) (email : String)
    (now : Nat) (st : SvcState) : Except AppError SendResponse × SvcState :=
  match pr with
  | .ok r => (.ok r, ⟨mapSet r.authRequestId ⟨email, now⟩ st.authRequests, st.users⟩)
  | .error e => (.error (wrapSDKError e "Failed to send passwordless email"), st)

/-- `resendPasswordlessEmail(authRequestId)`: delegates to the SDK and
returns its response; the local map is never touched. -/
def resendPasswordlessEmail (pr : Except SdkErr ResendResponse)
    (st : SvcState) : Except AppError ResendResponse × SvcState :=
  match pr with
  | .ok r => (.ok r, st)
  | .error e => (.error (wrapSDKError e "Failed to resend passwordless email"), st)

/-- `finalizeUserSessionAsync(verifyResponse, authRequestId)`: look up (or
create) the Firestore profile for the verified email, mint a Firebase
custom token for it, and delete the map entry when `authRequestId` is
truthy. `uuidv` is the `uuid()` fresh value; `mkToken` is
`admin.auth().createCustomToken`. -/
def finalizeUserSessionAsync (vr : VerifyResponse) (authRequestId : String)
    (uuidv : String) (mkToken : String → String) (st : SvcState) :
    FinalizeOk × SvcState :=
  let reqs' := if authRequestId ≠ "" then mapDelete authRequestId st.authRequests
               else st.authRequests
  match findProfile vr.email st.users with
  | none =>
    let userId := match vr.user_id with
      | some s => if s ≠ "" then s else uuidv
      | none => uuidv
    let profile : Profile := ⟨userId, vr.email⟩
    (⟨profile, mkToken profile.id⟩, ⟨reqs', st.users ++ [profile]⟩)
  | some p =>
    (⟨⟨p.id, p.email⟩, mkToken p.id⟩, ⟨reqs', st.users⟩)

/-- `verifyWithCode(code, authRequestId)`: delegate verification to the
SDK (`pr` is its result), then finalize; on any failure wrap and rethrow
with state unchanged. The local map is never consulted before the SDK
call. -/
def verifyWithCode (pr : Except SdkErr VerifyResponse) (authRequestId : String)
    (uuidv : String) (mkToken : String → String) (st : SvcState) :
    Except AppError FinalizeOk × SvcState :=
  match pr with
  | .ok vr =>
    let r := finalizeUserSessionAsync vr authRequestId uuidv mkToken st
    (.ok r.1, r.2)
  | .error e => (.error (wrapSDKError e "Failed to verify code"), st)

/-- `verifyWithLink(linkToken, authRequestId)`: same shape as
`verifyWithCode`, with its own wrap message. -/
def verifyWithLink (pr : Except SdkErr VerifyResponse) (authRequestId : String)
    (uuidv : String) (mkToken : String → String) (st : SvcState) :
    Except AppError FinalizeOk × SvcState :=
  match pr with
  | .ok vr =>
    let r := finalizeUserSessionAsync vr authRequestId uuidv mkToken st
    (.ok r.1, r.2)
  | .error e => (.error (wrapSDKError e "Failed to verify magic link"), st)

/-- Whether an `Except` result is a success. -/
def isOkE {α β : Type} : Except α β → Bool
  | .ok _ => true
  | .error _ => false

/-! ## vue-passwordless-auth: server API handlers -/

/-- Body of `POST /api/passwordless/verify`
(`\x7b authRequestId?, code?, linkToken? \x7d`); `none` is an absent field. -/
structure VerifyBody where
  authRequestId : Option String
  code : Option String
  linkToken : Option String
deriving DecidableEq, Repr

/-- An error thrown by the SDK inside the Nuxt verify handler: the handler
branches on `e?.status === 429`. -/
structure H3ProvErr where
  status : Option Nat
  message : String
deriving DecidableEq, Repr

/-- The SDK verify response as the Nuxt handler reads it
(`verifyResp?.email`). -/
structure SkVerifyResp where
  email : Option String
deriving DecidableEq, Repr

/-- Observable outcome of one Nuxt verify-handler invocation: HTTP status,
success flag, returned email, whether `sk.passwordless.verifyPasswordlessEmail`
was reached, and the email a session cookie was set for (via
`setUserSession`), if any. -/
structure VueVerifyOut where
  status : Nat
  ok : Bool
  email : Option String
  providerCalled : Bool
  sessionSet : Option String
deriving DecidableEq, Repr

/-- `verify.post.ts` handler. Guard order as in the source: (1) neither
`code` nor `linkToken` → 400 before the `try`; (2) `linkToken` without
`authRequestId` → 400 thrown inside the `try` (the thrown `createError`
carries no `.status`, so the `catch` re-maps it to the generic 400); then
the SDK call (`pr` is its result): no email in the response → 400;
success → set session and 200; thrown SDK error with `status === 429` →
429; any other error → 400. -/
def vueVerifyHandler (body : VerifyBody) (pr : Except H3ProvErr SkVerifyResp) :
    VueVerifyOut :=
  if ¬ truthyS body.code ∧ ¬ truthyS body.linkToken then
    ⟨400, false, none, false, none⟩
  else if truthyS body.linkToken ∧ ¬ truthyS body.authRequestId then
    ⟨400, false, none, false, none⟩
  else
    match pr with
    | .ok vr =>
      if ¬ truthyS vr.email then ⟨400, false, none, true, none⟩
      else ⟨200, true, vr.email, true, vr.email⟩
    | .error e =>
      if e.status = some 429 then ⟨429, false, none, true, none⟩
      else ⟨400, false, none, true, none⟩

/-- Body of `POST /api/passwordless/send` (`\x7b email \x7d`; the optional
`template` field is unused by the handler logic). -/
structure SendBody where
  email : Option String
deriving DecidableEq, Repr

/-- Observable outcome of the Nuxt send handler: HTTP status, whether
`sk.passwordless.sendPasswordlessEmail` was reached, and the shaped
response, if any. -/
structure VueSendOut where
  status : Nat
  providerCalled : Bool
  resp : Option SendResponse
deriving DecidableEq, Repr

/-- `send.post.ts` handler: `!body.email` → 400 `Email required` before the
SDK call; otherwise delegate to the SDK (`pr` is its result): success →
200 with the shaped response, thrown error → 500. No other validation of
the email string is performed. -/
def vueSendHandler (body : SendBody) (pr : Except H3ProvErr SendResponse) :
    VueSendOut :=
  if ¬ truthyS body.email then ⟨400, false, none⟩
  else
    match pr with
    | .ok r => ⟨200, true, some r⟩
    | .error _ => ⟨500, true, none⟩

/-! ## nextjs-passwordless-auth: `api/verify-magic-link/route.ts` -/

/-- Query/body of the magic-link route: `link_token` and `auth_request_id`
(`searchParams.get` yields `null` → `none` for an absent parameter). -/
structure MagicQuery where
  link_token : Option String
  auth_request_id : Option String
deriving DecidableEq, Repr

/-- What the route responds with: a JSON response with a status code, or a
redirect to a URL. -/
inductive NextAction where
  | json (status : Nat)
  | redirect (url : String)
deriving DecidableEq, Repr

/-- Observable outcome of one magic-link route invocation: the response,
whether `scalekit.passwordless.verifyPasswordlessEmail` was reached, and
the email a session cookie was created for, if any. -/
structure NextOut where
  action : NextAction
  providerCalled : Bool
  sessionCookieEmail : Option String
deriving DecidableEq, Repr

/-- The base URL used for the GET redirect
(`process.env.NEXT_PUBLIC_BASE_URL || "http://localhost:3000"`). -/
def nextBaseUrl : String := "http://localhost:3000"

/-- `GET /api/verify-magic-link`: missing `link_token` → 400; missing
`auth_request_id` → redirect to the client page
`/verify-magic-link?link_token=...` (no SDK call, no session cookie);
otherwise delegate to the SDK (`pr` is its result, carrying
`verifyResponse.email` on success): success → 200 with a session cookie,
error → 400. -/
def verifyMagicLinkGET (q : MagicQuery) (pr : Except String String) : NextOut :=
  if ¬ truthyS q.link_token then ⟨.json 400, false, none⟩
  else if ¬ truthyS q.auth_request_id then
    ⟨.redirect (nextBaseUrl ++ "/verify-magic-link?link_token=" ++ q.link_token.getD ""),
     false, none⟩
  else
    match pr with
    | .ok email => ⟨.json 200, true, some email⟩
    | .error _ => ⟨.json 400, true, none⟩

/-- `POST /api/verify-magic-link`: missing `link_token` → 400; missing
`auth_request_id` → 400; otherwise delegate to the SDK: success → 200 with
a session cookie, error → 400. -/
def verifyMagicLinkPOST (q : MagicQuery) (pr : Except String String) : NextOut :=
  if ¬ truthyS q.link_token then ⟨.json 400, false, none⟩
  else if ¬ truthyS q.auth_request_id then ⟨.json 400, false, none⟩
  else
    match pr with
    | .ok email => ⟨.json 200, true, some email⟩
    | .error _ => ⟨.json 400, true, none⟩

/-! ## vue-passwordless-auth: Pinia store `setAuthRequest` -/

/-- A JavaScript value that may be a number or a string (the SDK may return
the passwordless type as a numeric enum or a string). -/
inductive JsVal where
  | num (n : Nat)
  | str (s : String)
deriving DecidableEq, Repr

/-- JavaScript truthiness of an optional number-or-string value. -/
def truthyV : Option JsVal → Bool
  | some (.num n) => n ≠ 0
  | some (.str s) => s ≠ ""
  | none => false

/-- The client-side auth store state (`user` is irrelevant to
`setAuthRequest` and omitted). -/
structure StoreState where
  authRequestId : Option String
  passwordlessType : Option String
  expiresAt : Option Nat
deriving DecidableEq, Repr

/-- A send/resend API response as the store reads it: both camelCase and
snake_case spellings of each field. -/
structure StoreResp where
  authRequestId : Option String
  auth_request_id : Option String
  passwordlessType : Option JsVal
  passwordless_type : Option JsVal
  expiresAt : Option Nat
  expires_at : Option Nat
deriving DecidableEq, Repr

/-- The numeric-enum mapping `\x7b 1: OTP, 2: LINK, 3: LINK_OTP \x7d`. -/
def numTypeMap : Nat → Option String
  | 1 => some "OTP"
  | 2 => some "LINK"
  | 3 => some "LINK_OTP"
  | _ => none

/-- The store action `setAuthRequest(resp)`:
`this.authRequestId = resp.authRequestId || resp.auth_request_id || this.authRequestId`;
the type is normalized through the numeric-enum map with fallback to the
current value; `this.expiresAt = resp.expiresAt || resp.expires_at ||
this.expiresAt`. -/
def setAuthRequest (resp : StoreResp) (st : StoreState) : StoreState :=
  let aid := if truthyS resp.authRequestId then resp.authRequestId
             else if truthyS resp.auth_request_id then resp.auth_request_id
             else st.authRequestId
  let t0 : Option JsVal := if truthyV resp.passwordlessType then resp.passwordlessType
                           else resp.passwordless_type
  let t1 : Option String := match t0 with
    | some (.num n) => if truthyS (numTypeMap n) then numTypeMap n else st.passwordlessType
    | some (.str s) => some s
    | none => none
  let pt := if truthyS t1 then t1 else st.passwordlessType
  let ea := if truthyN resp.expiresAt then resp.expiresAt
            else if truthyN resp.expires_at then resp.expires_at
            else st.expiresAt
  ⟨aid, pt, ea⟩

/-! ## vue-passwordless-auth: session utils and `session.get.ts`

The `jsonwebtoken` signer/verifier is a black box per the spec; it is
modelled abstractly: a signed token records its payload, the secret it was
signed with, the issue time and the lifetime (`expiresIn: '1d'` = 86400
seconds); verification succeeds exactly when the supplied secret matches
the signing secret and the token is unexpired, and throws (modelled as
`none`) otherwise. A tampered or forged token is one whose recorded
signing secret differs from the server's; a malformed cookie value is one
that is not a token at all. -/

/-- The session JWT payload: `\x7b email, createdAt \x7d`. -/
structure SessionPayload where
  email : String
  createdAt : Nat
deriving DecidableEq, Repr

/-- An abstract signed JWT. -/
structure Token where
  payload : SessionPayload
  secret : String
  iat : Nat
  lifetime : Nat
deriving DecidableEq, Repr

/-- `jwt.sign(payload, secret, \x7b expiresIn: '1d' \x7d)` at time `now`. -/
def jwtSign (secret : String) (p : SessionPayload) (now : Nat) : Token :=
  ⟨p, secret, now, 86400⟩

/-- `jwt.verify(token, secret)` at time `now`: the payload when the secret
matches and the token is unexpired, `none` (a throw) otherwise. -/
def jwtVerify (t : Token) (secret : String) (now : Nat) : Option SessionPayload :=
  if t.secret = secret ∧ now ≤ t.iat + t.lifetime then some t.payload else none

/-- The value of the `pw_sess` cookie on an incoming request: absent (or
empty, which is equally falsy), present but not a well-formed JWT, or a
JWT. -/
inductive CookieVal where
  | absent
  | malformed (raw : String)
  | tok (t : Token)
deriving DecidableEq, Repr

/-- Options passed to `setCookie`. -/
structure CookieOpts where
  httpOnly : Bool
  sameSite : String
  path : String
deriving DecidableEq, Repr

/-- The `setCookie` call performed by `setUserSession`: cookie name, signed
token value and options. -/
structure SetCookieCall where
  name : String
  value : Token
  opts : CookieOpts
deriving DecidableEq, Repr

/-- `setUserSession(event, email)`: sign `\x7b email, createdAt: Date.now() \x7d`
with the configured secret for one day and set it as the `pw_sess` cookie,
HTTP-only, SameSite lax, path `/`. -/
def setUserSession (secret email : String) (now : Nat) : SetCookieCall :=
  { name := "pw_sess"
    value := jwtSign secret ⟨email, now⟩ now
    opts := { httpOnly := true, sameSite := "lax", path := "/" } }

/-- `getUserSession(event)`: read the `pw_sess` cookie; a falsy cookie
yields `null`; otherwise `jwt.verify` under a `try`, with any throw
(malformed, bad signature, expired) caught and turned into `null`. A pure
function of the cookie, the secret and the clock — no server-side store is
consulted. -/
def getUserSession (cookie : CookieVal) (secret : String) (now : Nat) :
    Option SessionPayload :=
  match cookie with
  | .absent => none
  | .malformed _ => none
  | .tok t => jwtVerify t secret now

/-- The `user` field of the session response: `\x7b email \x7d`. -/
structure UserInfo where
  email : String
deriving DecidableEq, Repr

/-- The response of `GET /api/auth/session`. A handler returning a plain
object is serialized by h3 with HTTP status 200; the handler contains no
throw. -/
structure SessionResponse where
  status : Nat
  authenticated : Bool
  user : Option UserInfo
deriving DecidableEq, Repr

/-- `session.get.ts` handler:
`\x7b authenticated: !!sess, user: sess ? \x7b email: sess.email \x7d : null \x7d`. -/
def sessionHandler (cookie : CookieVal) (secret : String) (now : Nat) :
    SessionResponse :=
  let sess := getUserSession cookie secret now
  { status := 200
    authenticated := sess.isSome
    user := sess.map fun p => ⟨p.email⟩ }

/-- Modelled from the spec: "`email` must be a syntactically valid
address". The repository contains no email-syntax validator, so validity
is modelled by minimal necessary conditions any syntactic check imposes:
exactly one `@` with a nonempty local part and a nonempty domain. -/
def isSyntacticallyValidEmail (s : String) : Bool :=
  match s.data.splitOn '@' with
  | [local_, domain] => local_ ≠ [] ∧ domain ≠ []
  | _ => false

/-! ## Map lemmas -/

theorem mapGet_mapDelete (k k' : String) (m : ReqMap) :
    mapGet k (mapDelete k' m) = if k' = k then none else mapGet k m := by
  induction m with
  | nil => simp [mapGet, mapDelete]
  | cons kv rest ih =>
    obtain ⟨k₀, v₀⟩ := kv
    by_cases h₀ : k₀ = k'
    · rw [show mapDelete k' ((k₀, v₀) :: rest) = mapDelete k' rest from by
          simp [mapDelete, h₀], ih]
      by_cases h₁ : k' = k
      · simp [h₁]
      · have h₂ : ¬ k₀ = k := by rw [h₀]; exact h₁
        simp [mapGet, h₂, h₁]
    · rw [show mapDelete k' ((k₀, v₀) :: rest) = (k₀, v₀) :: mapDelete k' rest from by
          simp [mapDelete, h₀]]
      by_cases h₁ : k₀ = k
      · have h₂ : ¬ k' = k := fun h => h₀ (h₁.trans h.symm)
        simp [mapGet, h₁, h₂]
      · simp [mapGet, h₁, ih]

theorem mapGet_mapSet (k k' : String) (v : AuthEntry) (m : ReqMap) :
    mapGet k (mapSet k' v m) = if k' = k then some v else mapGet k m := by
  by_cases h : k' = k
  · subst h
    simp [mapSet, mapGet]
  · simp [mapSet, mapGet, h, mapGet_mapDelete]

theorem mapGet_mapDelete_self (k : String) (m : ReqMap) :
    mapGet k (mapDelete k m) = none := by
  simp [mapGet_mapDelete]

/-! ## Claim theorems -/

/-- Claim C5: whenever provider-side verification fails (wrong code,
expired, rate-limited, network/5xx), the verify operation leaves all local
state unchanged — the request is not marked consumed, its tracking entry
stays in the store, and no session credential is set; the failure is
propagated only as a typed error (`AppError` in the service, an HTTP error
status in the Nuxt handler). -/
theorem verify_provider_failure_is_pure_error (e : SdkErr) (aid uuidv : String)
    (mk : String → String) (st : SvcState) (body : VerifyBody) (pe : H3ProvErr) :
    verifyWithCode (.error e) aid uuidv mk st
      = (.error (wrapSDKError e "Failed to verify code"), st) ∧
    verifyWithLink (.error e) aid uuidv mk st
      = (.error (wrapSDKError e "Failed to verify magic link"), st) ∧
    (vueVerifyHandler body (.error pe)).sessionSet = none ∧
    (vueVerifyHandler body (.error pe)).ok = false ∧
    ((vueVerifyHandler body (.error pe)).status = 400 ∨
      (vueVerifyHandler body (.error pe)).status = 429) := by
  refine ⟨rfl, rfl, ?_, ?_, ?_⟩ <;>
    · simp only [vueVerifyHandler]
      split_ifs <;> simp

/-- Claim C7: `GET /auth/session` always returns HTTP 200 and never fails;
it reports `authenticated = true` together with the session's email
exactly when the request carries a session token signed with the server's
secret that has not expired, and `authenticated = false` in every other
case (absent, malformed, tampered or expired credential). -/
theorem session_endpoint_always_200_and_correct (cookie : CookieVal)
    (secret : String) (now : Nat) :
    (sessionHandler cookie secret now).status = 200 ∧
    ((sessionHandler cookie secret now).authenticated = true ↔
      ∃ t, cookie = CookieVal.tok t ∧ t.secret = secret ∧ now ≤ t.iat + t.lifetime) ∧
    (∀ t, cookie = CookieVal.tok t → t.secret = secret → now ≤ t.iat + t.lifetime →
      (sessionHandler cookie secret now).user = some ⟨t.payload.email⟩) := by
  refine ⟨rfl, ?_, ?_⟩
  · constructor
    · intro h
      match hc : cookie with
      | .absent => simp [sessionHandler, getUserSession] at h
      | .malformed r => simp [sessionHandler, getUserSession] at h
      | .tok t =>
        refine ⟨t, rfl, ?_⟩
        simp only [sessionHandler, getUserSession, jwtVerify] at h
        by_cases hv : t.secret = secret ∧ now ≤ t.iat + t.lifetime
        · exact hv
        · rw [if_neg hv] at h
          simp at h
    · rintro ⟨t, rfl, hs, hexp⟩
      simp [sessionHandler, getUserSession, jwtVerify, hs, hexp]
  · rintro t rfl hs hexp
    simp [sessionHandler, getUserSession, jwtVerify, hs, hexp, UserInfo.mk.injEq]

/-- Witness for C7 at a concrete valid token and clock. -/
theorem session_endpoint_always_200_and_correct_witness :
    (sessionHandler (CookieVal.tok ⟨⟨"u@test.com", 5⟩, "s3cr3t", 5, 86400⟩)
        "s3cr3t" 10).authenticated = true ∧
    (sessionHandler (CookieVal.tok ⟨⟨"u@test.com", 5⟩, "s3cr3t", 5, 86400⟩)
        "s3cr3t" 10).user = some ⟨"u@test.com"⟩ := by
  have h := session_endpoint_always_200_and_correct
    (CookieVal.tok ⟨⟨"u@test.com", 5⟩, "s3cr3t", 5, 86400⟩) "s3cr3t" 10
  exact ⟨h.2.1.mpr ⟨_, rfl, rfl, by norm_num⟩, h.2.2 _ rfl rfl (by norm_num)⟩

/-- Claim C8: an established session is a stateless signed credential: the
cookie set at login is HTTP-only and SameSite-lax, its payload is the
verified email plus the issue timestamp, and a later session read succeeds
(returning exactly that payload) iff the reading secret matches the
signing secret and the credential's one-day lifetime has not passed — no
server-side record is involved (`getUserSession` is a function of cookie,
secret and clock alone). -/
theorem session_is_stateless_signed_cookie (secret email : String) (now nowR : Nat) :
    (setUserSession secret email now).opts.httpOnly = true ∧
    (setUserSession secret email now).opts.sameSite = "lax" ∧
    (setUserSession secret email now).value.payload = ⟨email, now⟩ ∧
    (getUserSession (.tok (setUserSession secret email now).value) secret nowR
        = some ⟨email, now⟩ ↔ nowR ≤ now + 86400) ∧
    (∀ secret', ¬ secret' = secret →
      getUserSession (.tok (setUserSession secret email now).value) secret' nowR = none) := by
  refine ⟨rfl, rfl, rfl, ?_, ?_⟩
  · constructor
    · intro h
      by_cases hr : nowR ≤ now + 86400
      · exact hr
      · simp [getUserSession, setUserSession, jwtSign, jwtVerify, hr] at h
    · intro hr
      simp [getUserSession, setUserSession, jwtSign, jwtVerify, hr]
  · intro secret' hs
    have hne : ¬ (secret = secret' ∧ nowR ≤ now + 86400) := fun hh => hs hh.1.symm
    simp only [getUserSession, setUserSession, jwtSign, jwtVerify]
    rw [if_neg hne]

/-- Witness for C8 at a concrete secret, email and clock. -/
theorem session_is_stateless_signed_cookie_witness :
    (setUserSession "k1" "a@b.co" 100).opts.httpOnly = true ∧
    (getUserSession (.tok (setUserSession "k1" "a@b.co" 100).value) "k1" 200
      = some ⟨"a@b.co", 100⟩) ∧
    getUserSession (.tok (setUserSession "k1" "a@b.co" 100).value) "k2" 200 = none := by
  have h := session_is_stateless_signed_cookie "k1" "a@b.co" 100 200
  exact ⟨h.1, h.2.2.2.1.mpr (by norm_num), h.2.2.2.2 "k2" (by decide)⟩

/-- Claim C10: reading the session credential is total — `getUserSession`
returns the decoded payload exactly when the cookie holds a token that
verifies against the configured secret and is unexpired, and returns
`none` (never a fault) in every other case: absent, malformed, tampered or
expired. -/
theorem getUserSession_total_characterization (cookie : CookieVal)
    (secret : String) (now : Nat) (p : SessionPayload) :
    getUserSession cookie secret now = some p ↔
      ∃ t, cookie = CookieVal.tok t ∧ t.secret = secret ∧
        now ≤ t.iat + t.lifetime ∧ p = t.payload := by
  constructor
  · intro h
    match hc : cookie with
    | .absent => simp [getUserSession] at h
    | .malformed r => simp [getUserSession] at h
    | .tok t =>
      simp only [getUserSession, jwtVerify] at h
      by_cases hv : t.secret = secret ∧ now ≤ t.iat + t.lifetime
      · rw [if_pos hv] at h
        exact ⟨t, rfl, hv.1, hv.2, (Option.some.injEq _ _ ▸ h).symm⟩
      · rw [if_neg hv] at h
        exact absurd h (by simp)
  · rintro ⟨t, rfl, hs, hexp, rfl⟩
    simp [getUserSession, jwtVerify, hs, hexp]

/-- Witness for C10 at a concrete token. -/
theorem getUserSession_total_characterization_witness :
    getUserSession (CookieVal.tok ⟨⟨"w@x.io", 7⟩, "sk", 7, 86400⟩) "sk" 7
      = some ⟨"w@x.io", 7⟩ := by
  exact (getUserSession_total_characterization
    (CookieVal.tok ⟨⟨"w@x.io", 7⟩, "sk", 7, 86400⟩) "sk" 7 ⟨"w@x.io", 7⟩).mpr
    ⟨_, rfl, rfl, by norm_num, rfl⟩

/-- Counterexample to claim C1: after `initiate("a@example.com")` twice
(provider request ids `r1` then `r2`), the first request's entry is still
in the `authRequests` map, and a verify against `r1` succeeds whenever the
provider accepts it — the service has no local `NotFound` path at all. -/
theorem second_initiate_keeps_first_request_live :
    mapGet "r1" ((sendPasswordlessEmail (.ok ⟨"r2"⟩) "a@example.com" 2
        ((sendPasswordlessEmail (.ok ⟨"r1"⟩) "a@example.com" 1 ⟨[], []⟩).2)).2).authRequests
      = some ⟨"a@example.com", 1⟩ ∧
    isOkE ((verifyWithCode (.ok ⟨"a@example.com", some "u1"⟩) "r1" "uu"
        (fun i => String.append "tk-" i)
        ((sendPasswordlessEmail (.ok ⟨"r2"⟩) "a@example.com" 2
          ((sendPasswordlessEmail (.ok ⟨"r1"⟩) "a@example.com" 1 ⟨[], []⟩).2)).2)).1)
      = true := by
  decide

/-- Claim C1 as amended: the pending-request map is keyed by `requestId`,
not by email — a second `initiate(email)` adds a second tracking entry and
leaves the first `requestId` tracked with its original entry; moreover
verification never consults the local map, so the success or failure of a
verify against either `requestId` is exactly the provider's verdict. -/
theorem initiate_twice_tracks_both_requests (email : String) (n1 n2 : Nat)
    (r1 r2 : String) (st : SvcState) (h : ¬ r1 = r2) :
    mapGet r1 ((sendPasswordlessEmail (.ok ⟨r2⟩) email n2
        ((sendPasswordlessEmail (.ok ⟨r1⟩) email n1 st).2)).2).authRequests
      = some ⟨email, n1⟩ ∧
    mapGet r2 ((sendPasswordlessEmail (.ok ⟨r2⟩) email n2
        ((sendPasswordlessEmail (.ok ⟨r1⟩) email n1 st).2)).2).authRequests
      = some ⟨email, n2⟩ ∧
    (∀ (pr : Except SdkErr VerifyResponse) (aid uuidv : String)
        (mk : String → String) (st' : SvcState),
      isOkE (verifyWithCode pr aid uuidv mk st').1 = isOkE pr) := by
  refine ⟨?_, ?_, ?_⟩
  · have h2 : ¬ r2 = r1 := fun hh => h hh.symm
    simp [sendPasswordlessEmail, mapGet_mapSet, h2]
  · simp [sendPasswordlessEmail, mapGet_mapSet]
  · intro pr aid uuidv mk st'
    cases pr with
    | ok vr => simp [verifyWithCode, isOkE]
    | error e => simp [verifyWithCode, isOkE]

/-- Witness for the amended C1 at concrete request ids. -/
theorem initiate_twice_tracks_both_requests_witness :
    mapGet "q1" ((sendPasswordlessEmail (.ok ⟨"q2"⟩) "b@c.de" 20
        ((sendPasswordlessEmail (.ok ⟨"q1"⟩) "b@c.de" 10 ⟨[], []⟩).2)).2).authRequests
      = some ⟨"b@c.de", 10⟩ ∧
    mapGet "q2" ((sendPasswordlessEmail (.ok ⟨"q2"⟩) "b@c.de" 20
        ((sendPasswordlessEmail (.ok ⟨"q1"⟩) "b@c.de" 10 ⟨[], []⟩).2)).2).authRequests
      = some ⟨"b@c.de", 20⟩ := by
  have h := initiate_twice_tracks_both_requests "b@c.de" 10 20 "q1" "q2" ⟨[], []⟩
    (by decide)
  exact ⟨h.1, h.2.1⟩

/-- Counterexample to claim C2: the Next.js `GET /api/verify-magic-link`
handler, called with a non-empty `link_token` and no `auth_request_id`,
responds with a redirect to the client verification page — not with an
`InvalidInput` 400. -/
theorem magic_link_get_redirects_without_request_id :
    verifyMagicLinkGET ⟨some "tok123", none⟩ (.error "ignored")
      = ⟨.redirect "http://localhost:3000/verify-magic-link?link_token=tok123",
         false, none⟩ ∧
    ¬ (verifyMagicLinkGET ⟨some "tok123", none⟩ (.error "ignored")).action
        = NextAction.json 400 := by
  decide

/-- Claim C2 as amended: a non-empty `linkToken` with an empty or absent
`requestId` is rejected with HTTP 400 by the POST verify handlers (Nuxt
and Next.js), and the Next.js GET direct-link handler instead redirects to
the client verification page; in all three cases the provider is not
consulted and no session is created. -/
theorem link_token_without_request_id_never_verifies (body : VerifyBody)
    (q : MagicQuery) (pr : Except H3ProvErr SkVerifyResp)
    (prN : Except String String)
    (hb : truthyS body.linkToken = true) (hb2 : truthyS body.authRequestId = false)
    (hq : truthyS q.link_token = true) (hq2 : truthyS q.auth_request_id = false) :
    vueVerifyHandler body pr = ⟨400, false, none, false, none⟩ ∧
    verifyMagicLinkPOST q prN = ⟨.json 400, false, none⟩ ∧
    verifyMagicLinkGET q prN
      = ⟨.redirect (nextBaseUrl ++ "/verify-magic-link?link_token="
          ++ q.link_token.getD ""), false, none⟩ := by
  refine ⟨?_, ?_, ?_⟩
  · simp [vueVerifyHandler, hb, hb2]
  · simp [verifyMagicLinkPOST, hq, hq2]
  · simp [verifyMagicLinkGET, hq, hq2]

/-- Witness for the amended C2 at a concrete body and query. -/
theorem link_token_without_request_id_never_verifies_witness :
    vueVerifyHandler ⟨none, none, some "lt9"⟩ (.ok ⟨some "z@z.zz"⟩)
      = ⟨400, false, none, false, none⟩ ∧
    verifyMagicLinkPOST ⟨some "lt9", none⟩ (.ok "z@z.zz")
      = ⟨.json 400, false, none⟩ := by
  have h := link_token_without_request_id_never_verifies ⟨none, none, some "lt9"⟩
    ⟨some "lt9", none⟩ (.ok ⟨some "z@z.zz"⟩) (.ok "z@z.zz")
    (by decide) (by decide) (by decide) (by decide)
  exact ⟨h.1, h.2.1⟩

/-- Counterexample to claim C3: after a successful verification of `r1`
(which deletes the tracking entry), a second `verifyWithCode` against the
same `r1` with a provider that accepts again returns a second session —
not `AlreadyConsumed`; the service has no consumed flag and no
`AlreadyConsumed` error. -/
theorem consumed_request_can_verify_again :
    (verifyWithCode (.ok ⟨"a@x.com", some "u1"⟩) "r1" "uu"
        (fun i => String.append "tk-" i) ⟨[("r1", ⟨"a@x.com", 0⟩)], []⟩).1
      = .ok ⟨⟨"u1", "a@x.com"⟩, "tk-u1"⟩ ∧
    (verifyWithCode (.ok ⟨"a@x.com", some "u1"⟩) "r1" "uu"
        (fun i => String.append "tk-" i)
        ((verifyWithCode (.ok ⟨"a@x.com", some "u1"⟩) "r1" "uu"
          (fun i => String.append "tk-" i) ⟨[("r1", ⟨"a@x.com", 0⟩)], []⟩).2)).1
      = .ok ⟨⟨"u1", "a@x.com"⟩, "tk-u1"⟩ := by
  exact ⟨rfl, rfl⟩

/-- Claim C3 as amended: a successful verification deletes the local
tracking entry, but a further verify against the same `requestId` is
forwarded to the provider unchecked — on provider failure the caller gets
the wrapped provider error (the service defines no `AlreadyConsumed`
result), and on provider acceptance it gets another session. -/
theorem consumed_request_forwarded_to_provider (vr vr' : VerifyResponse)
    (aid u1 u2 : String) (mk : String → String) (st : SvcState) (e : SdkErr)
    (h : ¬ aid = "") :
    mapGet aid ((verifyWithCode (.ok vr) aid u1 mk st).2).authRequests = none ∧
    (verifyWithCode (.error e) aid u2 mk
        ((verifyWithCode (.ok vr) aid u1 mk st).2)).1
      = .error (wrapSDKError e "Failed to verify code") ∧
    isOkE ((verifyWithCode (.ok vr') aid u2 mk
        ((verifyWithCode (.ok vr) aid u1 mk st).2)).1) = true := by
  refine ⟨?_, rfl, ?_⟩
  · simp only [verifyWithCode, finalizeUserSessionAsync]
    cases hf : findProfile vr.email st.users <;>
      simp [hf, h, mapGet_mapDelete_self]
  · simp only [verifyWithCode, isOkE]

/-- Witness for the amended C3 at concrete inputs. -/
theorem consumed_request_forwarded_to_provider_witness :
    mapGet "w1" ((verifyWithCode (.ok ⟨"c@d.ef", some "u7"⟩) "w1" "uu"
        (fun i => i) ⟨[("w1", ⟨"c@d.ef", 3⟩)], []⟩).2).authRequests = none ∧
    (verifyWithCode (.error ⟨"bad code", some 401⟩) "w1" "uu" (fun i => i)
        ((verifyWithCode (.ok ⟨"c@d.ef", some "u7"⟩) "w1" "uu" (fun i => i)
          ⟨[("w1", ⟨"c@d.ef", 3⟩)], []⟩).2)).1
      = .error (wrapSDKError ⟨"bad code", some 401⟩ "Failed to verify code") := by
  have h := consumed_request_forwarded_to_provider ⟨"c@d.ef", some "u7"⟩
    ⟨"c@d.ef", some "u7"⟩ "w1" "uu" "uu" (fun i => i)
    ⟨[("w1", ⟨"c@d.ef", 3⟩)], []⟩ ⟨"bad code", some 401⟩ (by decide)
  exact ⟨h.1, h.2.1⟩

/-- Counterexample to claim C4: two duplicate `verifyWithLink` calls
against the same `requestId`, each accepted by the provider (the racing
schedule in which both provider round-trips complete), both succeed — the
code contains no compare-and-set on a consumed flag, so it is not the case
that exactly one succeeds with the other failing as `AlreadyConsumed`. -/
theorem double_verify_mints_two_sessions :
    isOkE ((verifyWithLink (.ok ⟨"b@x.com", some "u2"⟩) "rq" "id1"
        (fun i => String.append "fb-" i) ⟨[("rq", ⟨"b@x.com", 0⟩)], []⟩).1) = true ∧
    isOkE ((verifyWithLink (.ok ⟨"b@x.com", some "u2"⟩) "rq" "id2"
        (fun i => String.append "fb-" i)
        ((verifyWithLink (.ok ⟨"b@x.com", some "u2"⟩) "rq" "id1"
          (fun i => String.append "fb-" i)
          ⟨[("rq", ⟨"b@x.com", 0⟩)], []⟩).2)).1) = true := by
  decide

/-- Claim C4 as amended: the service serializes nothing locally — each of
two duplicate verify calls is decided solely by the provider: when the
provider accepts both, both succeed (two sessions are minted from one
AuthRequest); exactly-one-success holds only when the provider itself
rejects the replay, in which case the second caller gets the wrapped
provider error. -/
theorem duplicate_verify_decided_by_provider (vr vr' : VerifyResponse)
    (aid u1 u2 : String) (mk : String → String) (st : SvcState) :
    isOkE ((verifyWithLink (.ok vr) aid u1 mk st).1) = true ∧
    isOkE ((verifyWithLink (.ok vr') aid u2 mk
        ((verifyWithLink (.ok vr) aid u1 mk st).2)).1) = true ∧
    (∀ e : SdkErr,
      (verifyWithLink (.error e) aid u2 mk
          ((verifyWithLink (.ok vr) aid u1 mk st).2)).1
        = .error (wrapSDKError e "Failed to verify magic link")) := by
  refine ⟨?_, ?_, fun e => rfl⟩
  · simp only [verifyWithLink, isOkE]
  · simp only [verifyWithLink, isOkE]

/-- Counterexample to claim C6: `"not-an-email"` is not a syntactically
valid address, yet the send handler forwards it to the provider and
returns 200 on provider success, and the service records a tracking entry
for it — there is no syntactic rejection. -/
theorem invalid_email_is_forwarded_to_provider :
    isSyntacticallyValidEmail "not-an-email" = false ∧
    vueSendHandler ⟨some "not-an-email"⟩ (.ok ⟨"r9"⟩) = ⟨200, true, some ⟨"r9"⟩⟩ ∧
    mapGet "r9" ((sendPasswordlessEmail (.ok ⟨"r9"⟩) "not-an-email" 3
        ⟨[], []⟩).2).authRequests = some ⟨"not-an-email", 3⟩ := by
  refine ⟨by decide, by decide, ?_⟩
  simp [sendPasswordlessEmail, mapGet_mapSet]

/-- Claim C6 as amended: `initiate` rejects only an empty or absent email
with HTTP 400 before the provider call; any non-empty email string —
syntactically valid or not — is forwarded to the Identity Provider Client,
and on provider success a local tracking entry is created for it. -/
theorem send_rejects_only_empty_email (b : SendBody)
    (pr : Except H3ProvErr SendResponse) (email : String) (now : Nat)
    (st : SvcState) (r : SendResponse) :
    (truthyS b.email = false → vueSendHandler b pr = ⟨400, false, none⟩) ∧
    (truthyS b.email = true → (vueSendHandler b pr).providerCalled = true) ∧
    mapGet r.authRequestId
        ((sendPasswordlessEmail (.ok r) email now st).2).authRequests
      = some ⟨email, now⟩ := by
  refine ⟨?_, ?_, ?_⟩
  · intro h
    simp [vueSendHandler, h]
  · intro h
    cases pr with
    | ok x => simp [vueSendHandler, h]
    | error e => simp [vueSendHandler, h]
  · simp [sendPasswordlessEmail, mapGet_mapSet]

/-- Witness for the amended C6 at concrete inputs. -/
theorem send_rejects_only_empty_email_witness :
    vueSendHandler ⟨none⟩ (.ok ⟨"r5"⟩) = ⟨400, false, none⟩ ∧
    (vueSendHandler ⟨some "x"⟩ (.ok ⟨"r5"⟩)).providerCalled = true := by
  exact ⟨(send_rejects_only_empty_email ⟨none⟩ (.ok ⟨"r5"⟩) "x" 0 ⟨[], []⟩
      ⟨"r5"⟩).1 (by decide),
    (send_rejects_only_empty_email ⟨some "x"⟩ (.ok ⟨"r5"⟩) "x" 0 ⟨[], []⟩
      ⟨"r5"⟩).2.1 (by decide)⟩

/-- Counterexample to claim C9: `resend` does not refresh `expiresAt` to a
strictly later time — when the resend response carries no expiry field the
store keeps the old value, and when it echoes the same expiry the value is
unchanged; here `expiresAt` is 100 both before and after. -/
theorem resend_does_not_strictly_refresh_expiry :
    (setAuthRequest ⟨none, none, none, none, none, none⟩
        ⟨some "r1", some "OTP", some 100⟩).expiresAt = some 100 ∧
    (setAuthRequest ⟨some "r1", none, none, none, some 100, none⟩
        ⟨some "r1", some "OTP", some 100⟩).expiresAt = some 100 := by
  decide

/-- Claim C9 as amended: `resend(requestId)` is strictly an in-place
refresh on the server — the service's state (map and users) is returned
unchanged, so the same key lookup succeeds before and after, no tracking
entry is created, and every stored field is untouched; the client store's
`expiresAt` is then set to the provider-returned expiry when one is
present (and kept unchanged when the response carries none), with no
guarantee that it is strictly later, and the tracked `authRequestId` is
likewise kept when the response does not carry one. -/
theorem resend_is_in_place_refresh (pr : Except SdkErr ResendResponse)
    (st : SvcState) (resp : StoreResp) (s : StoreState) (v : Nat)
    (hv : ¬ v = 0) (he : resp.expiresAt = some v) :
    (resendPasswordlessEmail pr st).2 = st ∧
    (∀ k, mapGet k ((resendPasswordlessEmail pr st).2).authRequests
      = mapGet k st.authRequests) ∧
    (setAuthRequest resp s).expiresAt = some v ∧
    (∀ resp' : StoreResp, truthyN resp'.expiresAt = false →
      truthyN resp'.expires_at = false →
      (setAuthRequest resp' s).expiresAt = s.expiresAt) ∧
    (∀ resp' : StoreResp, truthyS resp'.authRequestId = false →
      truthyS resp'.auth_request_id = false →
      (setAuthRequest resp' s).authRequestId = s.authRequestId) := by
  have hst : (resendPasswordlessEmail pr st).2 = st := by
    cases pr with
    | ok x => rfl
    | error e => rfl
  refine ⟨hst, fun k => by rw [hst], ?_, ?_, ?_⟩
  · have ht : truthyN (some v) = true := by simpa [truthyN] using hv
    simp [setAuthRequest, he, ht]
  · intro resp' h1 h2
    simp [setAuthRequest, h1, h2]
  · intro resp' h1 h2
    simp [setAuthRequest, h1, h2]

/-- Witness for the amended C9 at concrete inputs. -/
theorem resend_is_in_place_refresh_witness :
    (resendPasswordlessEmail (.ok ⟨"ok"⟩)
        ⟨[("r8", ⟨"e@f.gh", 4⟩)], []⟩).2 = ⟨[("r8", ⟨"e@f.gh", 4⟩)], []⟩ ∧
    (setAuthRequest ⟨some "r8", none, none, none, some 900, none⟩
        ⟨some "r8", some "OTP", some 500⟩).expiresAt = some 900 := by
  have h := resend_is_in_place_refresh (.ok ⟨"ok"⟩)
    ⟨[("r8", ⟨"e@f.gh", 4⟩)], []⟩ ⟨some "r8", none, none, none, some 900, none⟩
    ⟨some "r8", some "OTP", some 500⟩ 900 (by decide) rfl
  exact ⟨h.1, h.2.2.1⟩

end BlogOps
